import Mathlib

/-!
Verification of the authentication and credential-lifecycle subsystem of the
dynamic-listing backend. The definitions below are a shallow embedding of the
TypeScript auth controller (signup, email verification, password login,
federated login, OTP request/verify, forgot/reset/change password) and of the
admin account-provisioning flow, over an explicit list-of-users store.

Modelling conventions:
- the Prisma store is a `List User`; `findUnique`/`findFirst` become
  `List.find?`, `update` becomes a `List.map` guarded on the key;
- clock readings (`new Date()`) and generated randomness (record ids,
  verification/reset tokens, OTP codes) are passed as explicit arguments;
- bcrypt is modelled by an injective hash with its compare function;
- JWT signing is modelled by a record carrying the embedded claims;
- JavaScript string truthiness (`!s` is true exactly on the empty string,
  and on `null`/`undefined` for optional fields) is made explicit.
-/

namespace DynamicListing

/-- Truthiness of a JavaScript string: falsy exactly when empty. -/
def strTruthy (s : String) : Bool := s != ""

/-- Truthiness of a nullable JavaScript string field. -/
def optTruthy : Option String → Bool
  | none => false
  | some s => s != ""

/-- Models bcrypt.hash with 12 rounds: an injective one-way function.
The salt prefix is fixed, which keeps the hash deterministic; what matters
for the flows is that compare succeeds exactly on the preimage. -/
def bcryptHash (p : String) : String := "bcrypt12$" ++ p

/-- Models bcrypt.compare: true iff the hash was produced from the password. -/
def bcryptCompare (p h : String) : Bool := h == bcryptHash p

/-- A signed session token; models jwt.sign({ id: userId }, secret). Only the
embedded claim is relevant to the flows. -/
structure Jwt where
  id : String
deriving Repr, DecidableEq

/-- Models generateToken from the auth controller. -/
def generateToken (userId : String) : Jwt := { id := userId }

/-- The User row of the Prisma schema (prisma/migrations baseline). Field
defaults mirror the schema: role defaults to user, isVerified to false, all
nullable columns to null. Timestamps are integer epoch milliseconds. -/
structure User where
  id : String
  name : String
  email : String
  password : Option String := none
  image : Option String := none
  googleId : Option String := none
  role : String := "user"
  otp : Option String := none
  otpExpires : Option Int := none
  isVerified : Bool := false
  verificationToken : Option String := none
  resetPasswordToken : Option String := none
  resetPasswordExpires : Option Int := none
deriving Repr, DecidableEq

/-- The database: the users table. -/
abbrev DB := List User

/-- The public projection returned on successful authentication:
id, name, email, role, image — never the hash. -/
structure PublicUser where
  id : String
  name : String
  email : String
  role : String
  image : Option String
deriving Repr, DecidableEq

/-- Projection of a stored user to the public shape. -/
def publicUser (u : User) : PublicUser :=
  { id := u.id, name := u.name, email := u.email, role := u.role,
    image := u.image }

/-- An HTTP JSON response of the auth endpoints: status code, message, and
the optional token and user payload fields. -/
structure Resp where
  status : Nat
  message : String
  token : Option Jwt := none
  user : Option PublicUser := none
deriving Repr, DecidableEq

/-- Response with only a status and message (no token, no user). -/
def errResp (status : Nat) (message : String) : Resp :=
  { status := status, message := message }

/-- prisma.user.findUnique({ where: { email } }). -/
def findByEmail (db : DB) (email : String) : Option User :=
  db.find? (fun u => u.email == email)

/-- prisma.user.findUnique({ where: { id } }). -/
def findById (db : DB) (id : String) : Option User :=
  db.find? (fun u => u.id == id)

/-- prisma.user.findFirst({ where: { verificationToken: token } }). -/
def findByVerificationToken (db : DB) (token : String) : Option User :=
  db.find? (fun u => u.verificationToken == some token)

/-- prisma.user.findFirst({ where: { resetPasswordToken: token,
resetPasswordExpires: { gt: now } } }); the gt filter is false on null. -/
def findByResetToken (db : DB) (now : Int) (token : String) : Option User :=
  db.find? (fun u => u.resetPasswordToken == some token &&
    match u.resetPasswordExpires with
    | some e => decide (now < e)
    | none => false)

/-- prisma.user.update({ where: { id } }) with an in-row transformation. -/
def updateById (db : DB) (id : String) (f : User → User) : DB :=
  db.map (fun u => if u.id == id then f u else u)

/-- prisma.user.update({ where: { email } }) with an in-row transformation. -/
def updateByEmail (db : DB) (email : String) (f : User → User) : DB :=
  db.map (fun u => if u.email == email then f u else u)

/-- User signup (POST /auth/signup). freshId and verificationToken are the
store-assigned id and the 32-character random token. Returns the response
and the resulting database. -/
def signup (db : DB) (freshId verificationToken : String)
    (name email password : String) : Resp × DB :=
  match findByEmail db email with
  | some _ => (errResp 400 "User already exists", db)
  | none =>
    let hashedPassword := bcryptHash password
    let newUser : User :=
      { id := freshId, name := name, email := email,
        password := some hashedPassword,
        verificationToken := some verificationToken }
    (errResp 201
      "User created successfully. Please check your email to verify your account.",
      db ++ [newUser])

/-- Email verification (GET /auth/verify-email?token=). -/
def verifyEmail (db : DB) (token : String) : Resp × DB :=
  if !strTruthy token then
    (errResp 400 "Invalid verification token", db)
  else
    match findByVerificationToken db token with
    | none => (errResp 400 "Invalid or expired verification token", db)
    | some user =>
      (errResp 200 "Email verified successfully! You can now log in.",
        updateById db user.id (fun u =>
          { u with isVerified := true, verificationToken := none }))

/-- Email/password login (POST /auth/login). Pure in the store: no mutation. -/
def login (db : DB) (email password : String) : Resp :=
  match findByEmail db email with
  | none => errResp 401 "Invalid email or password"
  | some user =>
    if !optTruthy user.password then
      errResp 401 "Invalid email or password"
    else if !bcryptCompare password (user.password.getD "") then
      errResp 401 "Invalid email or password"
    else if !user.isVerified then
      errResp 403 "Please verify your email address before logging in."
    else
      { status := 200, message := "Login successful",
        token := some (generateToken user.id),
        user := some (publicUser user) }

/-- Image written when linking a federated identity to an existing row:
data.image is undefined (no change) when the stored image is truthy, and is
the assertion's picture otherwise — where an absent picture also means no
change. -/
def linkImage (stored incoming : Option String) : Option String :=
  if optTruthy stored then stored
  else
    match incoming with
    | none => stored
    | some i => some i

/-- Federated (Google) login, modelled after the credential has been resolved
to profile fields {email, name, googleId, image} — the resolution itself
(ID-token verification or direct fields) is the external collaborator. -/
def googleAuth (db : DB) (freshId : String) (email name googleId : String)
    (image : Option String) : Resp × DB :=
  match findByEmail db email with
  | none =>
    let newUser : User :=
      { id := freshId, name := name, email := email,
        googleId := some googleId, isVerified := true, image := image }
    ({ status := 200, message := "Login successful",
       token := some (generateToken newUser.id),
       user := some (publicUser newUser) }, db ++ [newUser])
  | some user =>
    if !optTruthy user.googleId then
      let link := fun u =>
        { u with
          googleId := some googleId, isVerified := true,
          image := linkImage u.image image }
      let linked := link user
      ({ status := 200, message := "Login successful",
         token := some (generateToken linked.id),
         user := some (publicUser linked) }, updateByEmail db email link)
    else
      ({ status := 200, message := "Login successful",
         token := some (generateToken user.id),
         user := some (publicUser user) }, db)

/-- OTP request (POST /auth/request-otp). otp is the generated 6-digit code;
the expiry is 10 minutes from now. Provisions the account when absent. -/
def requestOTP (db : DB) (freshId : String) (now : Int) (otp : String)
    (email : String) : Resp × DB :=
  let otpExpires : Int := now + 10 * 60 * 1000
  match findByEmail db email with
  | none =>
    let newUser : User :=
      { id := freshId, name := (email.splitOn "@").headD "", email := email,
        otp := some otp, otpExpires := some otpExpires }
    (errResp 200 "OTP sent to your email.", db ++ [newUser])
  | some _ =>
    (errResp 200 "OTP sent to your email.",
      updateByEmail db email (fun u =>
        { u with otp := some otp, otpExpires := some otpExpires }))

/-- OTP verification (POST /auth/verify-otp). -/
def verifyOTP (db : DB) (now : Int) (email otp : String) : Resp × DB :=
  match findByEmail db email with
  | none => (errResp 400 "Invalid or expired OTP", db)
  | some user =>
    if user.otp != some otp then
      (errResp 400 "Invalid or expired OTP", db)
    else
      match user.otpExpires with
      | none => (errResp 400 "Invalid or expired OTP", db)
      | some e =>
        if e < now then
          (errResp 400 "Invalid or expired OTP", db)
        else
          let clear := fun u =>
            { u with otp := none, otpExpires := none, isVerified := true }
          let updatedUser := clear user
          ({ status := 200, message := "Login successful",
             token := some (generateToken updatedUser.id),
             user := some (publicUser updatedUser) },
            updateByEmail db email clear)

/-- Reset password with token (POST /auth/reset-password). -/
def resetPassword (db : DB) (now : Int) (token password : String) :
    Resp × DB :=
  if !strTruthy token || !strTruthy password then
    (errResp 400 "Token and password are required", db)
  else if password.length < 8 then
    (errResp 400 "Password must be at least 8 characters long", db)
  else
    match findByResetToken db now token with
    | none => (errResp 400 "Invalid or expired reset token", db)
    | some user =>
      let hashedPassword := bcryptHash password
      let upd := fun u =>
        { u with
          password := some hashedPassword,
          resetPasswordToken := none, resetPasswordExpires := none,
          isVerified := true }
      let updatedUser := upd user
      ({ status := 200, message := "Password has been set successfully",
         token := some (generateToken updatedUser.id),
         user := some (publicUser updatedUser) },
        updateById db user.id upd)

/-- Forgot password (POST /auth/forgot-password). resetTok is the generated
32-character token; expiry is 1 hour from now. Responds with the same generic
message whether or not the account exists. -/
def forgotPassword (db : DB) (now : Int) (resetTok : String)
    (email : String) : Resp × DB :=
  if !strTruthy email then
    (errResp 400 "Email is required", db)
  else
    match findByEmail db email with
    | none =>
      (errResp 200
        "If an account exists with this email, a password reset link has been sent.",
        db)
    | some user =>
      (errResp 200
        "If an account exists with this email, a password reset link has been sent.",
        updateById db user.id (fun u =>
          { u with
            resetPasswordToken := some resetTok,
            resetPasswordExpires := some (now + 60 * 60 * 1000) }))

/-- Change password for a logged-in user (POST /auth/change-password).
userId is the authenticated principal's id, absent when no principal was
attached. -/
def changePassword (db : DB) (userId : Option String)
    (currentPassword newPassword : String) : Resp × DB :=
  if !optTruthy userId then
    (errResp 401 "Unauthorized", db)
  else
    let uid := userId.getD ""
    if !strTruthy currentPassword || !strTruthy newPassword then
      (errResp 400 "Current and new password are required", db)
    else if newPassword.length < 8 then
      (errResp 400 "New password must be at least 8 characters long", db)
    else
      match findById db uid with
      | none => (errResp 404 "User not found", db)
      | some user =>
        if !optTruthy user.password then
          (errResp 404 "User not found", db)
        else if !bcryptCompare currentPassword (user.password.getD "") then
          (errResp 400 "Incorrect current password", db)
        else
          (errResp 200 "Password updated successfully",
            updateById db uid (fun u =>
              { u with password := some (bcryptHash newPassword) }))

/-- Admin account provisioning (POST /admin/users, createAdminUser): creates
an admin with no password, isVerified=true and a 7-day reset-token pair, then
emails an invitation terminating in the reset-password flow. The response's
user summary (id/name/email/role/status) is omitted from the Resp payload
here; the claims about this flow concern only the stored state. -/
def createAdminUser (db : DB) (freshId resetTok : String) (now : Int)
    (name email : String) : Resp × DB :=
  if !strTruthy name || !strTruthy email then
    (errResp 400 "Name and email are required", db)
  else
    match findByEmail db email with
    | some _ => (errResp 400 "A user with this email already exists", db)
    | none =>
      let newUser : User :=
        { id := freshId, name := name, email := email, role := "admin",
          isVerified := true, resetPasswordToken := some resetTok,
          resetPasswordExpires := some (now + 7 * 24 * 60 * 60 * 1000) }
      (errResp 201
        "Admin user created successfully. An invitation email has been sent.",
        db ++ [newUser])

/-- Profile image update (POST /auth/profile-image). imageUrl is the URL
returned by the blob-storage collaborator. -/
def updateProfileImage (db : DB) (userId : Option String)
    (imageUrl : String) : Resp × DB :=
  if !optTruthy userId then
    (errResp 401 "Unauthorized", db)
  else
    (errResp 200 "Profile image updated successfully",
      updateById db (userId.getD "") (fun u => { u with image := some imageUrl }))

/-!
Shared lemmas about the store primitives.
-/

/-- A lookup that misses a whole list hits an appended element iff the
predicate accepts it. -/
theorem find?_append_singleton {α} (p : α → Bool) (l : List α) (x : α)
    (h : l.find? p = none) :
    (l ++ [x]).find? p = if p x then some x else none := by
  induction l with
  | nil => cases hp : p x <;> simp [List.find?, hp]
  | cons a l ih =>
    simp only [List.cons_append, List.find?_cons] at h ⊢
    cases hp : p a with
    | true => simp [hp] at h
    | false =>
      simp only [hp] at h ⊢
      exact ih h

/-- A map that fixes every element of a list leaves it unchanged. -/
theorem map_eq_self_of_fixed {α} (f : α → α) (l : List α)
    (h : ∀ a ∈ l, f a = a) : l.map f = l := by
  induction l with
  | nil => rfl
  | cons a l ih =>
    simp only [List.map_cons]
    rw [h a (List.mem_cons_self a l), ih (fun b hb => h b (List.mem_cons_of_mem a hb))]

/-- Email lookup misses exactly when no row has the email. -/
theorem findByEmail_eq_none_iff (db : DB) (e : String) :
    findByEmail db e = none ↔ ∀ u ∈ db, u.email ≠ e := by
  unfold findByEmail
  rw [List.find?_eq_none]
  constructor
  · intro h u hu
    have := h u hu
    simpa using this
  · intro h u hu
    simpa using h u hu

/-- Shape of a row of an updated store: either it is the transform of a row
matching the email, or an untouched row with a different email. -/
theorem mem_updateByEmail (db : DB) (e : String) (f : User → User)
    (v : User) (hv : v ∈ updateByEmail db e f) :
    (∃ w, w ∈ db ∧ w.email = e ∧ v = f w) ∨ (v ∈ db ∧ v.email ≠ e) := by
  unfold updateByEmail at hv
  rcases List.mem_map.mp hv with ⟨w, hw, hfw⟩
  by_cases h : w.email = e
  · left
    refine ⟨w, hw, h, ?_⟩
    simp only [h, beq_self_eq_true, if_true] at hfw
    exact hfw.symm
  · right
    have hne : (w.email == e) = false := by simp [h]
    simp only [hne, Bool.false_eq_true, if_false] at hfw
    subst hfw
    exact ⟨hw, h⟩

/-- Shape of a row of an updated store: either it is the transform of a row
matching the id, or an untouched row with a different id. -/
theorem mem_updateById (db : DB) (i : String) (f : User → User)
    (v : User) (hv : v ∈ updateById db i f) :
    (∃ w, w ∈ db ∧ w.id = i ∧ v = f w) ∨ (v ∈ db ∧ v.id ≠ i) := by
  unfold updateById at hv
  rcases List.mem_map.mp hv with ⟨w, hw, hfw⟩
  by_cases h : w.id = i
  · left
    refine ⟨w, hw, h, ?_⟩
    simp only [h, beq_self_eq_true, if_true] at hfw
    exact hfw.symm
  · right
    have hne : (w.id == i) = false := by simp [h]
    simp only [hne, Bool.false_eq_true, if_false] at hfw
    subst hfw
    exact ⟨hw, h⟩

/-!
C1 — anti-leak property of password login for unverified accounts.
-/

/-- Sample store for the login claims: one unverified user with a password. -/
def unverifiedAlice : User :=
  { id := "u1", name := "Alice", email := "a@x.com",
    password := some (bcryptHash "password1"), isVerified := false }

/-- C1 (counterexample): for an unverified stored user, submitting the
correct password and submitting a wrong one do NOT produce the same login
status — the correct password yields 403 and the wrong one 401, so the
status reveals that the password was correct. -/
theorem C1_login_status_counterexample :
    (login [unverifiedAlice] "a@x.com" "password1").status ≠
      (login [unverifiedAlice] "a@x.com" "wrongpass").status := by
  decide

/-- C1 (amended): for a stored user that is unverified and holds a password
hash, the login status is 403 exactly when the submitted password matches
the stored hash and 401 otherwise: the password check runs before the
verification check, so the 401/403 distinction does depend on password
correctness. -/
theorem C1_login_status_by_password (db : DB) (email password : String)
    (u : User) (hfind : findByEmail db email = some u)
    (hpw : optTruthy u.password = true) (hver : u.isVerified = false) :
    (login db email password).status =
      if bcryptCompare password (u.password.getD "") then 403 else 401 := by
  unfold login
  rw [hfind]
  simp only [hpw, hver, Bool.not_true, Bool.false_eq_true, if_false]
  cases h : bcryptCompare password (u.password.getD "") with
  | true => simp [h, errResp]
  | false => simp [h, errResp]

/-- C1 witness: the amended theorem evaluated on the sample store. -/
theorem C1_login_status_by_password_witness :
    (login [unverifiedAlice] "a@x.com" "password1").status = 403 := by
  rw [C1_login_status_by_password [unverifiedAlice] "a@x.com" "password1"
    unverifiedAlice rfl rfl rfl]
  decide

/-!
C2 — anti-enumeration of forgot-password.
-/

/-- C2: forgot-password produces the byte-identical response (same 200
status, same generic message, no token, no user payload) for an email with
a stored user and for an email with no stored user; the missing-account
case leaves the store unchanged, while the existing-account case only sets
the reset pair. -/
theorem C2_forgot_password_uniform (db : DB) (now : Int) (tok : String)
    (e1 e2 : String) (u : User)
    (h1 : strTruthy e1 = true) (h2 : strTruthy e2 = true)
    (hex : findByEmail db e1 = some u) (hnx : findByEmail db e2 = none) :
    (forgotPassword db now tok e1).1 = (forgotPassword db now tok e2).1 ∧
    (forgotPassword db now tok e1).1.status = 200 ∧
    (forgotPassword db now tok e2).2 = db := by
  unfold forgotPassword
  rw [h1, h2, hex, hnx]
  simp [errResp]

/-- C2 witness: identical responses on a concrete store holding only Alice,
for her email and for an unknown email. -/
theorem C2_forgot_password_uniform_witness :
    (forgotPassword [unverifiedAlice] 0 "tok" "a@x.com").1 =
      (forgotPassword [unverifiedAlice] 0 "tok" "zz@x.com").1 := by
  exact (C2_forgot_password_uniform [unverifiedAlice] 0 "tok" "a@x.com"
    "zz@x.com" unverifiedAlice rfl rfl rfl rfl).1

/-!
C3 — reset-password: validation, token check, success effects.
-/

/-- A string of length at least 8 is truthy. -/
theorem strTruthy_of_long (s : String) (h : 8 ≤ s.length) :
    strTruthy s = true := by
  unfold strTruthy
  simp only [bne_iff_ne, ne_eq]
  intro he
  subst he
  exact absurd h (by decide)

/-- C3: reset-password (i) answers 400 with a validation message (missing
fields or short password) whenever the submitted password has fewer than 8
characters, leaving the store unchanged; (ii) answers the invalid-or-expired
error when no user holds the submitted (truthy) token with an unexpired
expiry, leaving the store unchanged; (iii) on finding such a user it stores
the hash of the new password, nulls both members of the reset pair, sets
isVerified, and returns 200 with a session token for that user. -/
theorem C3_reset_password (db : DB) (now : Int) (token password : String) :
    (password.length < 8 →
      (resetPassword db now token password).1.status = 400 ∧
      ((resetPassword db now token password).1.message =
          "Token and password are required" ∨
        (resetPassword db now token password).1.message =
          "Password must be at least 8 characters long") ∧
      (resetPassword db now token password).2 = db) ∧
    (8 ≤ password.length → strTruthy token = true →
      findByResetToken db now token = none →
      (resetPassword db now token password).1 =
        errResp 400 "Invalid or expired reset token" ∧
      (resetPassword db now token password).2 = db) ∧
    (∀ u, 8 ≤ password.length → strTruthy token = true →
      findByResetToken db now token = some u →
      (resetPassword db now token password).1.status = 200 ∧
      (resetPassword db now token password).1.token =
        some (generateToken u.id) ∧
      ∀ v ∈ (resetPassword db now token password).2, v.id = u.id →
        v.password = some (bcryptHash password) ∧
        v.resetPasswordToken = none ∧
        v.resetPasswordExpires = none ∧
        v.isVerified = true) := by
  refine ⟨?_, ?_, ?_⟩
  · intro hlt
    unfold resetPassword
    cases ht : strTruthy token <;> cases hp : strTruthy password <;>
      simp [ht, hp, hlt, errResp]
  · intro hge ht hnone
    have hp := strTruthy_of_long password hge
    have hlt : ¬ password.length < 8 := not_lt.mpr hge
    unfold resetPassword
    simp [ht, hp, hlt, hnone, errResp]
  · intro u hge ht hsome
    have hp := strTruthy_of_long password hge
    have hlt : ¬ password.length < 8 := not_lt.mpr hge
    unfold resetPassword
    simp only [ht, hp, Bool.not_true, Bool.or_self, Bool.false_eq_true,
      if_false, hlt, hsome]
    refine ⟨by trivial, by trivial, ?_⟩
    intro v hv hvid
    rcases mem_updateById db u.id _ v hv with ⟨w, _, _, rfl⟩ | ⟨_, hne⟩
    · exact ⟨rfl, rfl, rfl, rfl⟩
    · exact absurd hvid hne

/-- C3 witness: a concrete reset on a store holding one user with an
unexpired token. -/
theorem C3_reset_password_witness :
    (resetPassword
      [{ id := "u3", name := "Dan", email := "d@x.com",
         resetPasswordToken := some "rst", resetPasswordExpires := some 50 }]
      0 "rst" "newpassword1").1.status = 200 := by
  exact ((C3_reset_password
    [{ id := "u3", name := "Dan", email := "d@x.com",
       resetPasswordToken := some "rst", resetPasswordExpires := some 50 }]
    0 "rst" "newpassword1").2.2
    { id := "u3", name := "Dan", email := "d@x.com",
      resetPasswordToken := some "rst", resetPasswordExpires := some 50 }
    (by decide) rfl rfl).1

/-!
C4 — OTP verification: undifferentiated failure, expiry boundary, success
effects.
-/

/-- Sample store for the OTP claims: one user with a stored code expiring at
time 100. -/
def otpBob : User :=
  { id := "u4", name := "Bob", email := "b@x.com",
    otp := some "123456", otpExpires := some 100 }

/-- C4 (counterexample): with the stored expiry exactly equal to the current
time — at, not strictly before, the current time — OTP verification
succeeds with 200 instead of failing with the undifferentiated error, so
the claimed failure condition (expiry at or before now) does not match the
code, which only rejects strictly earlier expiries. -/
theorem C4_verify_otp_counterexample :
    (verifyOTP [otpBob] 100 "b@x.com" "123456").1.status = 200 ∧
    (verifyOTP [otpBob] 100 "b@x.com" "123456").1.message ≠
      "Invalid or expired OTP" := by
  decide

/-- C4 (amended): OTP verification returns the single undifferentiated 400
"Invalid or expired OTP" response, with the store unchanged, in all four
failure cases — no user for the email, code mismatch, no stored expiry, or
stored expiry strictly before the current time; and whenever the user
exists, the codes match and the expiry is at or after the current time, it
answers 200 with a session token and the public projection, and nulls both
OTP fields while setting isVerified on the stored row. -/
theorem C4_verify_otp (db : DB) (now : Int) (email otp : String) :
    ((findByEmail db email = none ∨
      (∃ u, findByEmail db email = some u ∧ u.otp ≠ some otp) ∨
      (∃ u, findByEmail db email = some u ∧ u.otpExpires = none) ∨
      (∃ u e, findByEmail db email = some u ∧ u.otpExpires = some e ∧
        e < now)) →
      (verifyOTP db now email otp).1 =
        errResp 400 "Invalid or expired OTP" ∧
      (verifyOTP db now email otp).2 = db) ∧
    (∀ u e, findByEmail db email = some u → u.otp = some otp →
      u.otpExpires = some e → now ≤ e →
      (verifyOTP db now email otp).1.status = 200 ∧
      (verifyOTP db now email otp).1.token = some (generateToken u.id) ∧
      (verifyOTP db now email otp).1.user = some (publicUser u) ∧
      ∀ v ∈ (verifyOTP db now email otp).2, v.email = email →
        v.otp = none ∧ v.otpExpires = none ∧ v.isVerified = true) := by
  constructor
  · intro hfail
    unfold verifyOTP
    rcases hfail with hn | ⟨u, hu, hne⟩ | ⟨u, hu, hexp⟩ | ⟨u, e, hu, hexp, hlt⟩
    · simp [hn, errResp]
    · simp [hu, hne, errResp]
    · by_cases ho : u.otp = some otp
      · simp [hu, ho, hexp, errResp]
      · simp [hu, ho, errResp]
    · by_cases ho : u.otp = some otp
      · simp [hu, ho, hexp, hlt, errResp]
      · simp [hu, ho, errResp]
  · intro u e hu ho hexp hle
    unfold verifyOTP
    have hnlt : ¬ e < now := not_lt.mpr hle
    simp only [hu, ho, bne_self_eq_false, Bool.false_eq_true, if_false,
      hexp, hnlt]
    refine ⟨by trivial, by trivial, by trivial, ?_⟩
    intro v hv hvemail
    rcases mem_updateByEmail db email _ v hv with ⟨w, _, _, rfl⟩ | ⟨_, hne⟩
    · exact ⟨rfl, rfl, rfl⟩
    · exact absurd hvemail hne

/-- C4 witness: the amended theorem evaluated on the sample store one
millisecond before expiry. -/
theorem C4_verify_otp_witness :
    (verifyOTP [otpBob] 99 "b@x.com" "123456").1.status = 200 := by
  exact ((C4_verify_otp [otpBob] 99 "b@x.com" "123456").2 otpBob 100
    rfl rfl rfl (by decide)).1

/-!
C5 — federated-login linking: mutation frame on existing users.
-/

/-- C5: when federated login resolves to the email of a stored user, then
(a) if that user has no (truthy) googleId the flow writes exactly the
subject id and isVerified, keeps every other field of the row, keeps the
stored image whenever one is (truthy-)present, and writes the assertion's
picture only when the stored image was absent; rows with other emails are
untouched; (b) if the user already holds a googleId, the store is returned
unchanged and only a token for that user is issued. -/
theorem C5_google_auth_frame (db : DB) (freshId email name gid : String)
    (im : Option String) (u : User)
    (hfind : findByEmail db email = some u) :
    (optTruthy u.googleId = false →
      ∀ v ∈ (googleAuth db freshId email name gid im).2,
        (v.email ≠ email → v ∈ db) ∧
        (v.email = email →
          ∃ w, w ∈ db ∧ w.email = email ∧
            v.googleId = some gid ∧ v.isVerified = true ∧
            v.id = w.id ∧ v.name = w.name ∧ v.password = w.password ∧
            v.role = w.role ∧ v.otp = w.otp ∧
            v.otpExpires = w.otpExpires ∧
            v.verificationToken = w.verificationToken ∧
            v.resetPasswordToken = w.resetPasswordToken ∧
            v.resetPasswordExpires = w.resetPasswordExpires ∧
            (optTruthy w.image = true → v.image = w.image) ∧
            (w.image = none → v.image = im))) ∧
    (optTruthy u.googleId = true →
      (googleAuth db freshId email name gid im).2 = db ∧
      (googleAuth db freshId email name gid im).1.token =
        some (generateToken u.id)) := by
  constructor
  · intro hng v hv
    unfold googleAuth at hv
    simp only [hfind, hng, Bool.not_false, if_true] at hv
    constructor
    · intro hne
      rcases mem_updateByEmail db email _ v hv with
        ⟨w, hw, hwe, rfl⟩ | ⟨hvdb, _⟩
      · exact absurd hwe hne
      · exact hvdb
    · intro heq
      rcases mem_updateByEmail db email _ v hv with
        ⟨w, hw, hwe, rfl⟩ | ⟨_, hne⟩
      · refine ⟨w, hw, hwe, rfl, rfl, rfl, rfl, rfl, rfl, rfl, rfl,
          rfl, rfl, rfl, ?_, ?_⟩
        · intro hwim
          simp [linkImage, hwim]
        · intro hwabsent
          cases im <;> simp [linkImage, hwabsent, optTruthy]
      · exact absurd heq hne
  · intro hg
    unfold googleAuth
    simp [hfind, hg]

/-- Sample store for the federated-login witness: a user already linked. -/
def linkedEve : User :=
  { id := "u5", name := "Eve", email := "e@x.com", googleId := some "g77",
    isVerified := true }

/-- C5 witness: a second federated login for an already linked user leaves
the store unchanged. -/
theorem C5_google_auth_frame_witness :
    (googleAuth [linkedEve] "i9" "e@x.com" "Eve G" "g99" (some "pic")).2 =
      [linkedEve] := by
  exact ((C5_google_auth_frame [linkedEve] "i9" "e@x.com" "Eve G" "g99"
    (some "pic") linkedEve rfl).2 rfl).1

/-!
C6 — signup uniqueness and creation effects.
-/

/-- Number of rows holding a given email. -/
def countEmail (db : DB) (e : String) : Nat :=
  (db.filter (fun u => u.email == e)).length

/-- countEmail distributes over append. -/
theorem countEmail_append (db l : List User) (e : String) :
    countEmail (db ++ l) e = countEmail db e + countEmail l e := by
  unfold countEmail
  simp [List.filter_append]

/-- A store with no row for an email misses on lookup. -/
theorem findByEmail_eq_none_of_count_zero (db : DB) (e : String)
    (h : countEmail db e = 0) : findByEmail db e = none := by
  rw [findByEmail_eq_none_iff]
  intro u hu
  unfold countEmail at h
  rw [List.length_eq_zero] at h
  have := List.filter_eq_nil_iff.mp h u hu
  simpa using this

/-- The row that a fresh signup appends to the store. -/
def signupRow (i t n e p : String) : User :=
  { id := i, name := n, email := e,
    password := some (bcryptHash p),
    verificationToken := some t }

/-- Branch lemma: signup on a fresh email appends the new row. -/
theorem signup_fresh (db : DB) (i t n e p : String)
    (h : findByEmail db e = none) :
    signup db i t n e p =
      (errResp 201
        "User created successfully. Please check your email to verify your account.",
        db ++ [signupRow i t n e p]) := by
  unfold signup signupRow
  simp [h]

/-- Branch lemma: signup on a taken email rejects and leaves the store. -/
theorem signup_exists (db : DB) (i t n e p : String) (u : User)
    (h : findByEmail db e = some u) :
    signup db i t n e p = (errResp 400 "User already exists", db) := by
  unfold signup
  simp [h]

/-- C6: signup with an email that already has a row fails with 400 and
creates nothing; signup with a fresh email answers 201 without a session
token, adds exactly one row for that email, and every added row carries
isVerified=false, the bcrypt hash of the password and the generated
verification token; hence two sequential signups with the same email on a
store with no row for it end with the second rejected and exactly one row. -/
theorem C6_signup (db : DB) (i1 t1 n1 i2 t2 n2 e p1 p2 : String) :
    ((∃ u, u ∈ db ∧ u.email = e) →
      (signup db i1 t1 n1 e p1).1.status = 400 ∧
      (signup db i1 t1 n1 e p1).2 = db) ∧
    (findByEmail db e = none →
      (signup db i1 t1 n1 e p1).1.status = 201 ∧
      (signup db i1 t1 n1 e p1).1.token = none ∧
      countEmail (signup db i1 t1 n1 e p1).2 e = countEmail db e + 1 ∧
      (∀ v ∈ (signup db i1 t1 n1 e p1).2, v ∈ db ∨
        (v.email = e ∧ v.isVerified = false ∧
          v.password = some (bcryptHash p1) ∧
          v.verificationToken = some t1))) ∧
    (countEmail db e = 0 →
      (signup (signup db i1 t1 n1 e p1).2 i2 t2 n2 e p2).1.status = 400 ∧
      countEmail (signup (signup db i1 t1 n1 e p1).2 i2 t2 n2 e p2).2 e
        = 1) := by
  refine ⟨?_, ?_, ?_⟩
  · rintro ⟨u, hu, hue⟩
    have h1 : findByEmail db e ≠ none := by
      intro hcontra
      rw [findByEmail_eq_none_iff] at hcontra
      exact hcontra u hu hue
    cases hf : findByEmail db e with
    | none => exact absurd hf h1
    | some w =>
      rw [signup_exists db i1 t1 n1 e p1 w hf]
      exact ⟨rfl, rfl⟩
  · intro hnone
    rw [signup_fresh db i1 t1 n1 e p1 hnone]
    refine ⟨rfl, rfl, ?_, ?_⟩
    · rw [countEmail_append]
      simp [countEmail, List.filter_cons, signupRow]
    · intro v hv
      rcases List.mem_append.mp hv with h | h
      · exact Or.inl h
      · have hveq := List.mem_singleton.mp h
        subst hveq
        exact Or.inr ⟨rfl, rfl, rfl, rfl⟩
  · intro hzero
    have hnone := findByEmail_eq_none_of_count_zero db e hzero
    rw [signup_fresh db i1 t1 n1 e p1 hnone]
    have hnone' : db.find? (fun u => u.email == e) = none := hnone
    have hf2 : findByEmail (db ++ [signupRow i1 t1 n1 e p1]) e =
        some (signupRow i1 t1 n1 e p1) := by
      unfold findByEmail
      rw [find?_append_singleton _ db _ hnone']
      simp [signupRow]
    rw [signup_exists _ i2 t2 n2 e p2 _ hf2]
    refine ⟨rfl, ?_⟩
    rw [countEmail_append, hzero]
    simp [countEmail, List.filter_cons, signupRow]

/-- C6 witness: two signups with the same email on the empty store leave
exactly one row. -/
theorem C6_signup_witness :
    countEmail
      (signup (signup [] "i1" "t1" "Alice" "a@x.com" "password1").2
        "i2" "t2" "Alice" "a@x.com" "password1").2 "a@x.com" = 1 := by
  exact ((C6_signup [] "i1" "t1" "Alice" "i2" "t2" "Alice" "a@x.com"
    "password1" "password1").2.2 rfl).2

/-!
C7 — round trip: signup, blocked login, email verification, successful
login.
-/

/-- A bcrypt hash is a truthy (non-empty) string. -/
theorem bcryptHash_truthy (p : String) :
    optTruthy (some (bcryptHash p)) = true := by
  unfold optTruthy bcryptHash
  simp only [bne_iff_ne, ne_eq, decide_eq_true_eq]
  intro h
  have hlen := congrArg String.length h
  rw [String.length_append] at hlen
  have h9 : ("bcrypt12$" : String).length = 9 := rfl
  have h0 : ("" : String).length = 0 := rfl
  rw [h9, h0] at hlen
  exact absurd hlen (by omega)

/-- Comparing a password against its own hash succeeds. -/
theorem bcryptCompare_self (p : String) :
    bcryptCompare p (bcryptHash p) = true := by
  unfold bcryptCompare
  exact beq_self_eq_true (bcryptHash p)

/-- C7: starting from a store with no row for the email, no row holding the
generated verification token and no row with the fresh id, the round trip
holds: after signup, a login with the signed-up password fails 403
(unverified); running email verification with the signup token answers 200;
and a login after that succeeds with 200 and a session token whose embedded
id is the created user's id. -/
theorem C7_signup_verify_login_roundtrip (db : DB) (i t n e p : String)
    (hemail : findByEmail db e = none)
    (htok : ∀ u ∈ db, u.verificationToken ≠ some t)
    (hid : ∀ u ∈ db, u.id ≠ i)
    (ht : strTruthy t = true) :
    (login (signup db i t n e p).2 e p).status = 403 ∧
    (verifyEmail (signup db i t n e p).2 t).1.status = 200 ∧
    (login (verifyEmail (signup db i t n e p).2 t).2 e p).status = 200 ∧
    (login (verifyEmail (signup db i t n e p).2 t).2 e p).token =
      some { id := i } := by
  rw [signup_fresh db i t n e p hemail]
  have hnone' : db.find? (fun u => u.email == e) = none := hemail
  have hf1 : findByEmail (db ++ [signupRow i t n e p]) e =
      some (signupRow i t n e p) := by
    unfold findByEmail
    rw [find?_append_singleton _ db _ hnone']
    simp [signupRow]
  have hlogin1 : (login (db ++ [signupRow i t n e p]) e p).status = 403 := by
    unfold login
    rw [hf1]
    simp [signupRow, bcryptHash_truthy, bcryptCompare_self, errResp]
  have hfvnone : db.find? (fun u => u.verificationToken == some t) = none := by
    rw [List.find?_eq_none]
    intro u hu
    simp [htok u hu]
  have hfv : findByVerificationToken (db ++ [signupRow i t n e p]) t =
      some (signupRow i t n e p) := by
    unfold findByVerificationToken
    rw [find?_append_singleton _ db _ hfvnone]
    simp [signupRow]
  have hdb2 : (verifyEmail (db ++ [signupRow i t n e p]) t).2 =
      db ++ [{ signupRow i t n e p with
        isVerified := true, verificationToken := none }] := by
    unfold verifyEmail
    simp only [ht, Bool.not_true, Bool.false_eq_true, if_false, hfv]
    unfold updateById
    rw [List.map_append]
    congr 1
    · apply map_eq_self_of_fixed
      intro a ha
      have : (a.id == (signupRow i t n e p).id) = false := by
        simp [signupRow, hid a ha]
      simp [this]
    · simp [signupRow]
  have hstatus2 : (verifyEmail (db ++ [signupRow i t n e p]) t).1.status
      = 200 := by
    unfold verifyEmail
    simp only [ht, Bool.not_true, Bool.false_eq_true, if_false, hfv]
    rfl
  refine ⟨hlogin1, hstatus2, ?_, ?_⟩ <;> rw [hdb2]
  all_goals {
    have hf3 : findByEmail
        (db ++ [{ signupRow i t n e p with
          isVerified := true, verificationToken := none }]) e =
        some { signupRow i t n e p with
          isVerified := true, verificationToken := none } := by
      unfold findByEmail
      rw [find?_append_singleton _ db _ hnone']
      simp [signupRow]
    unfold login
    rw [hf3]
    simp [signupRow, bcryptHash_truthy, bcryptCompare_self, generateToken] }

/-- C7 witness: the round trip on the empty store. -/
theorem C7_signup_verify_login_roundtrip_witness :
    (login (verifyEmail
        (signup [] "i7" "tok7" "Greg" "g@x.com" "password1").2 "tok7").2
      "g@x.com" "password1").status = 200 := by
  exact (C7_signup_verify_login_roundtrip [] "i7" "tok7" "Greg" "g@x.com"
    "password1" rfl (by simp) (by simp) rfl).2.2.1

/-!
C8 — change-password with a wrong current password.
-/

/-- optTruthy on a present value is string truthiness. -/
theorem optTruthy_some (s : String) : optTruthy (some s) = strTruthy s := rfl

/-- Sample store for the change-password claims: a verified user with a
password hash. -/
def verifiedCara : User :=
  { id := "u8", name := "Cara", email := "c@x.com",
    password := some (bcryptHash "oldpassword"), isVerified := true }

/-- C8 (counterexample): an authenticated change-password request whose
current password does not match the stored hash fails with status 400, not
with the 401 that the InvalidCredentials taxonomy entry prescribes. -/
theorem C8_change_password_counterexample :
    (changePassword [verifiedCara] (some "u8") "wrongpass"
      "newpassword1").1.status = 400 ∧
    (changePassword [verifiedCara] (some "u8") "wrongpass"
      "newpassword1").1.status ≠ 401 := by
  decide

/-- C8 (amended): for an authenticated change-password request where the
principal's record exists with a stored hash, the new password has at least
8 characters, and the submitted current password does not match the stored
hash, the flow fails with 400 and the distinct message "Incorrect current
password" (not the shared invalid-credentials response), and the store —
hence the stored password hash — is unchanged. -/
theorem C8_change_password_mismatch (db : DB) (uid cp np : String)
    (u : User)
    (huid : strTruthy uid = true)
    (hcp : strTruthy cp = true)
    (hnp : 8 ≤ np.length)
    (hfind : findById db uid = some u)
    (hpw : optTruthy u.password = true)
    (hbc : bcryptCompare cp (u.password.getD "") = false) :
    changePassword db (some uid) cp np =
      (errResp 400 "Incorrect current password", db) := by
  unfold changePassword
  have hnlt : ¬ np.length < 8 := not_lt.mpr hnp
  have hnpt := strTruthy_of_long np hnp
  simp [optTruthy_some, huid, hcp, hnpt, hnlt, hfind, hpw, hbc]

/-- C8 witness: the amended theorem evaluated on the sample store. -/
theorem C8_change_password_mismatch_witness :
    changePassword [verifiedCara] (some "u8") "alsowrong" "newpassword1" =
      (errResp 400 "Incorrect current password", [verifiedCara]) := by
  exact C8_change_password_mismatch [verifiedCara] "u8" "alsowrong"
    "newpassword1" verifiedCara rfl rfl (by decide) rfl rfl (by decide)

/-!
C10 — change-password for a principal whose record has no password hash.
-/

/-- C10: an authenticated change-password request by a principal whose
stored record exists but holds no (truthy) password hash fails with 404
"User not found" and leaves the store unchanged — exactly the outcome of a
vanished record — and the outcome is independent of the submitted current
password, which is never compared. -/
theorem C10_change_password_no_hash (db : DB) (uid cp np : String)
    (u : User)
    (huid : strTruthy uid = true)
    (hcp : strTruthy cp = true)
    (hnp : 8 ≤ np.length)
    (hfind : findById db uid = some u)
    (hpw : optTruthy u.password = false) :
    changePassword db (some uid) cp np =
      (errResp 404 "User not found", db) ∧
    (∀ db2, findById db2 uid = none →
      changePassword db2 (some uid) cp np =
        (errResp 404 "User not found", db2)) ∧
    (∀ cp2, strTruthy cp2 = true →
      changePassword db (some uid) cp2 np =
        changePassword db (some uid) cp np) := by
  have hnlt : ¬ np.length < 8 := not_lt.mpr hnp
  have hnpt := strTruthy_of_long np hnp
  have main : ∀ cpx, strTruthy cpx = true →
      changePassword db (some uid) cpx np =
        (errResp 404 "User not found", db) := by
    intro cpx hcpx
    unfold changePassword
    simp [optTruthy_some, huid, hcpx, hnpt, hnlt, hfind, hpw]
  refine ⟨main cp hcp, ?_, ?_⟩
  · intro db2 h2
    unfold changePassword
    simp [optTruthy_some, huid, hcp, hnpt, hnlt, h2]
  · intro cp2 h2
    rw [main cp2 h2, main cp hcp]

/-- Sample store for the no-hash claim: an OTP-provisioned user without a
password. -/
def otpOnlyOda : User :=
  { id := "u10", name := "Oda", email := "o@x.com", isVerified := true }

/-- C10 witness: the theorem evaluated on the sample store. -/
theorem C10_change_password_no_hash_witness :
    changePassword [otpOnlyOda] (some "u10") "whatever" "newpassword1" =
      (errResp 404 "User not found", [otpOnlyOda]) := by
  exact (C10_change_password_no_hash [otpOnlyOda] "u10" "whatever"
    "newpassword1" otpOnlyOda rfl rfl (by decide) rfl rfl).1

/-!
C9 — co-presence invariant of the transient secret pairs.
-/

/-- Co-presence of the transient secret pairs on one row: otp/otpExpires are
both set or both null, and likewise resetPasswordToken/resetPasswordExpires. -/
def pairsOk (u : User) : Prop :=
  u.otp.isSome = u.otpExpires.isSome ∧
  u.resetPasswordToken.isSome = u.resetPasswordExpires.isSome

instance (u : User) : Decidable (pairsOk u) := by
  unfold pairsOk
  infer_instance

/-- Co-presence on every row of a store. -/
def dbOk (db : DB) : Prop := ∀ u ∈ db, pairsOk u

/-- One request against the subsystem, with generated randomness and the
clock reading made explicit. Password login is read-only on the store and
therefore contributes no step. -/
inductive Op where
  | signupOp (freshId tok name email password : String)
  | verifyEmailOp (token : String)
  | googleAuthOp (freshId email name googleId : String)
      (image : Option String)
  | requestOTPOp (freshId : String) (now : Int) (otp email : String)
  | verifyOTPOp (now : Int) (email otp : String)
  | resetPasswordOp (now : Int) (token password : String)
  | forgotPasswordOp (now : Int) (resetTok email : String)
  | changePasswordOp (userId : Option String)
      (currentPassword newPassword : String)
  | createAdminUserOp (freshId resetTok : String) (now : Int)
      (name email : String)
  | updateProfileImageOp (userId : Option String) (imageUrl : String)

/-- Effect of one operation on the store. -/
def applyOp (op : Op) (db : DB) : DB :=
  match op with
  | .signupOp i t n e p => (signup db i t n e p).2
  | .verifyEmailOp t => (verifyEmail db t).2
  | .googleAuthOp i e n g im => (googleAuth db i e n g im).2
  | .requestOTPOp i now o e => (requestOTP db i now o e).2
  | .verifyOTPOp now e o => (verifyOTP db now e o).2
  | .resetPasswordOp now t p => (resetPassword db now t p).2
  | .forgotPasswordOp now t e => (forgotPassword db now t e).2
  | .changePasswordOp uid cp np => (changePassword db uid cp np).2
  | .createAdminUserOp i t now n e => (createAdminUser db i t now n e).2
  | .updateProfileImageOp uid url => (updateProfileImage db uid url).2

/-- Stores reachable from the empty store by running operations. -/
inductive Reachable : DB → Prop
  | init : Reachable []
  | step (op : Op) (db : DB) : Reachable db → Reachable (applyOp op db)

/-- A guarded row update preserves dbOk when the transformation preserves
pairsOk. -/
theorem dbOk_update (db : DB) (q : User → Bool) (f : User → User)
    (hdb : dbOk db) (hf : ∀ u, pairsOk u → pairsOk (f u)) :
    dbOk (db.map (fun u => if q u then f u else u)) := by
  intro v hv
  rcases List.mem_map.mp hv with ⟨w, hw, rfl⟩
  cases h : q w with
  | true =>
    simp only [h, if_true]
    exact hf w (hdb w hw)
  | false =>
    simp only [h, Bool.false_eq_true, if_false]
    exact hdb w hw

/-- Appending a row satisfying pairsOk preserves dbOk. -/
theorem dbOk_append (db : DB) (u : User) (hdb : dbOk db)
    (hu : pairsOk u) : dbOk (db ++ [u]) := by
  intro v hv
  rcases List.mem_append.mp hv with h | h
  · exact hdb v h
  · exact (List.mem_singleton.mp h) ▸ hu

/-- C9: in every store reachable by running the subsystem's operations from
the empty store, every row keeps otp and otpExpires both set or both null,
and resetPasswordToken and resetPasswordExpires both set or both null —
each flow that touches a member of a pair writes or clears both members in
the same update. -/
theorem C9_pairs_invariant (db : DB) (h : Reachable db) : dbOk db := by
  induction h with
  | init => intro u hu; cases hu
  | step op db hr ih =>
    cases op with
    | signupOp i t n e p =>
      show dbOk (signup db i t n e p).2
      cases hf : findByEmail db e with
      | some w =>
        rw [signup_exists db i t n e p w hf]
        exact ih
      | none =>
        rw [signup_fresh db i t n e p hf]
        exact dbOk_append db _ ih ⟨rfl, rfl⟩
    | verifyEmailOp t =>
      show dbOk (verifyEmail db t).2
      unfold verifyEmail
      cases ht : strTruthy t with
      | false => simp only [ht, Bool.not_false, if_true]; exact ih
      | true =>
        simp only [ht, Bool.not_true, Bool.false_eq_true, if_false]
        cases hf : findByVerificationToken db t with
        | none => simp only [hf]; exact ih
        | some w =>
          simp only [hf]
          exact dbOk_update db _ _ ih (fun u hu => hu)
    | googleAuthOp i e n g im =>
      show dbOk (googleAuth db i e n g im).2
      unfold googleAuth
      cases hf : findByEmail db e with
      | none =>
        simp only [hf]
        exact dbOk_append db _ ih ⟨rfl, rfl⟩
      | some w =>
        simp only [hf]
        cases hg : optTruthy w.googleId with
        | false =>
          simp only [hg, Bool.not_false, if_true]
          exact dbOk_update db _ _ ih (fun u hu => hu)
        | true =>
          simp only [hg, Bool.not_true, Bool.false_eq_true, if_false]
          exact ih
    | requestOTPOp i now o e =>
      show dbOk (requestOTP db i now o e).2
      unfold requestOTP
      cases hf : findByEmail db e with
      | none =>
        simp only [hf]
        exact dbOk_append db _ ih ⟨rfl, rfl⟩
      | some w =>
        simp only [hf]
        exact dbOk_update db _ _ ih (fun u hu => ⟨rfl, hu.2⟩)
    | verifyOTPOp now e o =>
      show dbOk (verifyOTP db now e o).2
      unfold verifyOTP
      cases hf : findByEmail db e with
      | none => simp only [hf]; exact ih
      | some w =>
        simp only [hf]
        cases hne : w.otp != some o with
        | true => simp only [hne, if_true]; exact ih
        | false =>
          simp only [hne, Bool.false_eq_true, if_false]
          cases hexp : w.otpExpires with
          | none => simp only [hexp]; exact ih
          | some x =>
            simp only [hexp]
            by_cases hlt : x < now
            · rw [if_pos hlt]; exact ih
            · rw [if_neg hlt]
              exact dbOk_update db _ _ ih (fun u hu => ⟨rfl, hu.2⟩)
    | resetPasswordOp now t p =>
      show dbOk (resetPassword db now t p).2
      unfold resetPassword
      by_cases h1 : (!strTruthy t || !strTruthy p) = true
      · rw [if_pos h1]; exact ih
      · rw [if_neg h1]
        by_cases h2 : p.length < 8
        · rw [if_pos h2]; exact ih
        · rw [if_neg h2]
          cases hf : findByResetToken db now t with
          | none => simp only [hf]; exact ih
          | some w =>
            simp only [hf]
            exact dbOk_update db _ _ ih (fun u hu => ⟨hu.1, rfl⟩)
    | forgotPasswordOp now t e =>
      show dbOk (forgotPassword db now t e).2
      unfold forgotPassword
      by_cases h1 : (!strTruthy e) = true
      · rw [if_pos h1]; exact ih
      · rw [if_neg h1]
        cases hf : findByEmail db e with
        | none => simp only [hf]; exact ih
        | some w =>
          simp only [hf]
          exact dbOk_update db _ _ ih (fun u hu => ⟨hu.1, rfl⟩)
    | changePasswordOp uid cp np =>
      show dbOk (changePassword db uid cp np).2
      unfold changePassword
      by_cases h1 : (!optTruthy uid) = true
      · rw [if_pos h1]; exact ih
      · rw [if_neg h1]
        by_cases h2 : (!strTruthy cp || !strTruthy np) = true
        · rw [if_pos h2]; exact ih
        · rw [if_neg h2]
          by_cases h3 : np.length < 8
          · rw [if_pos h3]; exact ih
          · rw [if_neg h3]
            cases hf : findById db (uid.getD "") with
            | none => simp only [hf]; exact ih
            | some w =>
              simp only [hf]
              by_cases h4 : (!optTruthy w.password) = true
              · rw [if_pos h4]; exact ih
              · rw [if_neg h4]
                by_cases h5 :
                    (!bcryptCompare cp (w.password.getD "")) = true
                · rw [if_pos h5]; exact ih
                · rw [if_neg h5]
                  exact dbOk_update db _ _ ih (fun u hu => hu)
    | createAdminUserOp i t now n e =>
      show dbOk (createAdminUser db i t now n e).2
      unfold createAdminUser
      by_cases h1 : (!strTruthy n || !strTruthy e) = true
      · rw [if_pos h1]; exact ih
      · rw [if_neg h1]
        cases hf : findByEmail db e with
        | some w => simp only [hf]; exact ih
        | none =>
          simp only [hf]
          exact dbOk_append db _ ih ⟨rfl, rfl⟩
    | updateProfileImageOp uid url =>
      show dbOk (updateProfileImage db uid url).2
      unfold updateProfileImage
      by_cases h1 : (!optTruthy uid) = true
      · rw [if_pos h1]; exact ih
      · rw [if_neg h1]
        exact dbOk_update db _ _ ih (fun u hu => hu)

/-- C9 witness: the invariant on the concrete store reached by an OTP
request for a fresh email followed by a forgot-password request for it. -/
theorem C9_pairs_invariant_witness :
    dbOk (applyOp (Op.forgotPasswordOp 0 "rtok" "n@x.com")
      (applyOp (Op.requestOTPOp "i11" 0 "123456" "n@x.com") [])) := by
  exact C9_pairs_invariant _
    (Reachable.step _ _ (Reachable.step _ _ Reachable.init))

end DynamicListing
